import Mathlib

/-!
Verification of the natural-language specification of the `deploy` CLI
against its source.  The repository has two source files:

* `src/cli.js` — a concatenation of two revisions of the CLI entry point.
  The second (older, CommonJS) revision contains the template tag-merging
  pass `tagger` (lines 387-424) and the credential resolver `loadCreds`
  (lines 426-461), which are the subjects of the tagger and credential
  claims.
* `src/unnamed/part_000` — the newest revision of the entry point, whose
  `main` function (lines 42-175) is the deployment orchestrator: stack-name
  validation, git preflight prompts, artifact checks, template rendering to
  a temporary file, and dispatch to create/update/delete/cancel, with
  GitHub deployment-status notification on the various outcomes.

The embedding below translates those functions into Lean.  External
collaborators (the cloud SDK, the stack-configuration library, git, the
prompt library, the GitHub client) are modelled as an explicit environment
of outcomes; the orchestrator is embedded as a function from the command
line and that environment to the trace of collaborator calls it issues and
its final outcome.
-/

namespace Deploy

/-! ## Template tagger (src/cli.js lines 387-424, second revision)

A template is a JSON document; the tagger touches only
`template.Resources`, and within each resource only `.Type` and
`.Properties.Tags`.  All other parts of the document are carried as opaque
`rest` fields that the tagger never reads or writes, mirroring that the
JavaScript mutates only the `Tags` arrays.  JavaScript absence
(`undefined`) is modelled with `Option`. -/

/-- A CloudFormation tag: a key/value pair, as the objects stored in a
resource `Properties.Tags` array. -/
structure Tag where
  Key : String
  Value : String
deriving DecidableEq, Repr

/-- The property bag of a resource.  The tagger reads and writes only the
`Tags` entry; every other property is untouched and carried opaquely in
`rest`. -/
structure Properties where
  Tags : Option (List Tag)
  rest : List (String × String)
deriving DecidableEq, Repr

/-- A resource definition: a type string and an optional property bag
(`template.Resources[name].Type`, `.Properties`). -/
structure Resource where
  «Type» : Option String
  Properties : Option Properties
deriving DecidableEq, Repr

/-- A template document: the optional `Resources` section, keyed by logical
name in `Object.keys` order, plus the untouched remainder of the
document. -/
structure Template where
  Resources : Option (List (String × Resource))
  rest : List (String × String)
deriving DecidableEq, Repr

/-- JavaScript SameValueZero comparison between an element of `tag_names`
(always a string, produced by `.map((t) => t.Key)` at src/cli.js:407) and
the loop variable `oTag` of `for (const oTag of tags)` (a tag object).  In
JavaScript `Array.prototype.includes` uses SameValueZero, under which a
string is never equal to an object, so this comparison is false for every
pair; the definition records that fact of the JavaScript semantics. -/
def jsSameValueZeroKeyTag (_key : String) (_oTag : Tag) : Bool := false

/-- The membership test `tag_names.includes(oTag)` at src/cli.js:410:
`tag_names` is a string array, `oTag` a tag object. -/
def jsIncludes (tag_names : List String) (oTag : Tag) : Bool :=
  tag_names.any (fun key => jsSameValueZeroKeyTag key oTag)

/-- The overwrite loop at src/cli.js:411-416: walk the current `Tags`
array, replace the `Value` of the first tag whose `Key` equals `oTag.Key`,
then break. -/
def overwriteFirst : List Tag → Tag → List Tag
  | [], _ => []
  | t :: ts, oTag =>
    if t.Key = oTag.Key then { t with Value := oTag.Value } :: ts
    else t :: overwriteFirst ts oTag

/-- The inner tag-merge loop of `tagger` (src/cli.js:407-420) on one
resource tag array: `tag_names` is computed once from the array as it
stood before the loop; then each input tag either takes the (never-taken,
see `jsSameValueZeroKeyTag`) overwrite branch or is pushed onto the end of
the array. -/
def mergeTags (existing : List Tag) (tags : List Tag) : List Tag :=
  let tag_names := existing.map Tag.Key
  tags.foldl
    (fun acc oTag =>
      if jsIncludes tag_names oTag then overwriteFirst acc oTag
      else acc ++ [oTag])
    existing

/-- The body of the per-resource loop of `tagger` (src/cli.js:391-421).
The resource is skipped when its `Type` is falsy (absent or the empty
string) or the static schema has no tag-capable entry for it
(`schemaHasTags`, the truthiness of
`schema.ResourceTypes[Type].Properties.Tags`); otherwise `Properties` and
`Properties.Tags` are created when absent and the merge loop runs. -/
def taggerResource (schemaHasTags : String → Bool) (tags : List Tag)
    (r : Resource) : Resource :=
  match r.«Type» with
  | none => r
  | some ty =>
    if ty = "" then r
    else if !(schemaHasTags ty) then r
    else
      let props := r.Properties.getD { Tags := none, rest := [] }
      let existing := props.Tags.getD []
      { r with Properties := some { props with Tags := some (mergeTags existing tags) } }

/-- The template tagger `tagger(template, tags)` (src/cli.js:387-424).
Returns the template unchanged when it has no `Resources` section or the
tag list is empty (`!tags || !tags.length`; an absent `dotdeploy.tags` is
modelled as the empty list); otherwise rewrites every resource through
`taggerResource`.  The static schema `data/cf_schema.json` is not under
src/ and is abstracted as the predicate `schemaHasTags`. -/
def tagger (schemaHasTags : String → Bool) (template : Template)
    (tags : List Tag) : Template :=
  match template.Resources with
  | none => template
  | some resources =>
    if tags.isEmpty then template
    else
      { template with
          Resources :=
            some (resources.map
              (fun nr => (nr.1, taggerResource schemaHasTags tags nr.2))) }

/-- The tag keys of resource `name` in template `T`
(`template.Resources[name].Properties.Tags.map((t) => t.Key)`), or `[]`
when any link of that path is absent. -/
def tagKeys (T : Template) (name : String) : List String :=
  ((((T.Resources.getD []).lookup name).bind Resource.Properties).bind
      Properties.Tags).getD [] |>.map Tag.Key

/-- Modelled from the spec: the static type-to-capability schema
`data/cf_schema.json` is not under src/, so `tagger` takes the
tag-capability predicate as a parameter (specification section 4.2).
This instance makes exactly `AWS::S3::Bucket` tag-capable; in the actual
CloudFormation resource schema that type accepts `Tags`. -/
def schemaS3 : String → Bool := fun ty => ty == "AWS::S3::Bucket"

/-- A template with a single tag-capable resource and no pre-existing
tags. -/
def bucketTemplate : Template :=
  { Resources := some [("Bucket", { «Type» := some "AWS::S3::Bucket", Properties := none })],
    rest := [] }

/-- A template whose single tag-capable resource already carries the tag
key `team`. -/
def taggedBucketTemplate : Template :=
  { Resources :=
      some [("Bucket",
        { «Type» := some "AWS::S3::Bucket",
          Properties := some { Tags := some [{ Key := "team", Value := "old" }], rest := [] } })],
    rest := [] }

/-- C1.  The tagger is not idempotent: because the membership test
`tag_names.includes(oTag)` at src/cli.js:410 compares the tag object
`oTag` against an array of key strings, it is false for every tag, so the
overwrite branch is dead and a second application appends the same tag
again.  At the concrete failing input (one tag-capable `AWS::S3::Bucket`
resource, single tag `team=platform`) the double application yields a
duplicated tag list instead of the once-applied template. -/
theorem tagger_not_idempotent :
    tagger schemaS3 (tagger schemaS3 bucketTemplate [{ Key := "team", Value := "platform" }])
        [{ Key := "team", Value := "platform" }]
      ≠ tagger schemaS3 bucketTemplate [{ Key := "team", Value := "platform" }] ∧
    tagger schemaS3 (tagger schemaS3 bucketTemplate [{ Key := "team", Value := "platform" }])
        [{ Key := "team", Value := "platform" }]
      = { Resources :=
            some [("Bucket",
              { «Type» := some "AWS::S3::Bucket",
                Properties := some
                  { Tags := some [{ Key := "team", Value := "platform" },
                                  { Key := "team", Value := "platform" }],
                    rest := [] } })],
          rest := [] } := by
  decide

/-- C2.  The merged tag list of a tag-capable resource can contain two
entries with the same key: merging the tag `team=new` into a resource that
already carries `team=old` appends instead of overwriting (the overwrite
branch at src/cli.js:410-416 is unreachable, see `jsSameValueZeroKeyTag`),
leaving the key `team` twice. -/
theorem tagger_duplicate_key :
    tagKeys (tagger schemaS3 taggedBucketTemplate [{ Key := "team", Value := "new" }]) "Bucket"
      = ["team", "team"] ∧
    ¬ (tagKeys (tagger schemaS3 taggedBucketTemplate [{ Key := "team", Value := "new" }])
        "Bucket").Nodup := by
  decide

/-- C9.  Applying the tagger with an empty tag list returns the template
unchanged (the guard `!tags || !tags.length` at src/cli.js:389), and so
does applying it to a template with no `Resources` section (the guard
`!template.Resources` at src/cli.js:388). -/
theorem tagger_empty_noop (schemaHasTags : String → Bool) (T : Template)
    (tags : List Tag) :
    tagger schemaHasTags T [] = T ∧
    (T.Resources = none → tagger schemaHasTags T tags = T) := by
  constructor
  · unfold tagger
    cases T.Resources <;> simp
  · intro h
    unfold tagger
    rw [h]

/-- Witness for C9 at concrete inputs: the empty tag list leaves
`bucketTemplate` unchanged, and a template with no resources is unchanged
under a nonempty tag list. -/
theorem tagger_empty_noop_witness :
    tagger schemaS3 bucketTemplate [] = bucketTemplate ∧
    tagger schemaS3 { Resources := none, rest := [("Outputs", "o")] }
        [{ Key := "team", Value := "platform" }]
      = { Resources := none, rest := [("Outputs", "o")] } :=
  ⟨(tagger_empty_noop schemaS3 bucketTemplate []).1,
   (tagger_empty_noop schemaS3 { Resources := none, rest := [("Outputs", "o")] }
      [{ Key := "team", Value := "platform" }]).2 rfl⟩

/-! ## Credential resolver (src/cli.js lines 426-461, second revision)

The `loadCreds` function reads the credentials file (a JSON object mapping
profile name to a credential object), picks a profile by the chain
explicit flag, project-local default, single entry, and reports through a
node-style callback.  The embedding keeps the JavaScript value semantics
of the resolution chain: in the single-profile branch the source assigns
`creds = Object.keys(creds)[0]`, which makes `creds` a profile-name
string, after which every property assignment on it is a sloppy-mode
no-op; in the zero-profile branch that index is `undefined` and the
following `creds.profile = ...` throws a TypeError. -/

/-- A credential object as stored under a profile name in
`~/.deployrc.json`, together with the `profile`, `repo` and `sha` fields
that `loadCreds` attaches before calling back. -/
structure CredObject where
  region : String := ""
  accountId : String := ""
  accessKeyId : String := ""
  secretAccessKey : String := ""
  profile : Option String := none
  repo : Option String := none
  sha : Option String := none
deriving DecidableEq, Repr

/-- The JavaScript value held by the `creds` variable of `loadCreds` after
the resolution chain: a credential object, a bare string (the
single-profile branch assigns the profile NAME, `Object.keys(creds)[0]`),
or `undefined` (the same expression on an empty object). -/
inductive CredsValue where
  | undef
  | str (s : String)
  | obj (c : CredObject)
deriving DecidableEq, Repr

/-- JavaScript sloppy-mode property assignment `creds.profile = p`: on an
object it sets the field, on a string primitive it is silently discarded,
on `undefined` it throws a TypeError. -/
def setProfile : CredsValue → String → Except String CredsValue
  | .undef, _ => .error "TypeError"
  | .str s, _ => .ok (.str s)
  | .obj c, p => .ok (.obj { c with profile := some p })

/-- The outcome of `loadCreds`: callback with an error message, callback
with the resolved creds value, or an uncaught TypeError escaping the
function. -/
inductive LoadCredsOutcome where
  | err (msg : String)
  | typeError
  | ok (creds : CredsValue)
deriving DecidableEq, Repr

/-- The message of the error produced when several profiles exist and
nothing disambiguates (src/cli.js:441); the AmbiguousProfileError of the
specification. -/
def ambiguousProfileMsg : String :=
  "Multiple deploy profiles found. Deploy with --profile or set a .deploy file"

/-- JavaScript truthiness of an optional string flag (absent and the empty
string are falsy). -/
def jsTruthy : Option String → Bool
  | none => false
  | some s => s != ""

/-- JavaScript string coercion of an optional string, as in the template
literal of the not-found message (an absent value prints as
`undefined`). -/
def jsToString : Option String → String
  | none => "undefined"
  | some s => s

/-- The tail of `loadCreds` (src/cli.js:447-459) after a creds value is
resolved: the AWS credential construction and `cf.preauth` are external
calls that throw on neither an object nor a string, and the assignments
`creds.repo = repo` and `creds.sha = sha` follow the same sloppy-mode
semantics as `setProfile` (no-ops on a string). -/
def finishCreds (repo sha : String) : CredsValue → LoadCredsOutcome
  | .undef => .typeError
  | .str s => .ok (.str s)
  | .obj c => .ok (.obj { c with repo := some repo, sha := some sha })

/-- The credential resolution of `loadCreds` (src/cli.js:426-461),
assuming the credentials file was readable (`credsFile = some file`, in
`Object.keys` order) or not (`none`).  `argvProfile` is the `--profile`
flag, `dotdeployProfile` the `profile` field of the project-local
`.deploy` file. -/
def loadCreds (argvProfile dotdeployProfile : Option String)
    (credsFile : Option (List (String × CredObject)))
    (repo sha : String) : LoadCredsOutcome :=
  match credsFile with
  | none => .err "No creds found - run \"deploy init\""
  | some file =>
    if jsTruthy argvProfile then
      let p := jsToString argvProfile
      match file.lookup p with
      | none => .err (p ++ " profile not found in creds")
      | some c =>
        match setProfile (.obj c) p with
        | .error _ => .typeError
        | .ok v => finishCreds repo sha v
    else if jsTruthy dotdeployProfile then
      let p := jsToString dotdeployProfile
      match file.lookup p with
      | none =>
        -- the source interpolates `argv.profile` (undefined here) into this message
        .err (jsToString argvProfile ++ " profile not found in creds")
      | some c =>
        match setProfile (.obj c) p with
        | .error _ => .typeError
        | .ok v => finishCreds repo sha v
    else if file.length > 1 then
      .err ambiguousProfileMsg
    else
      -- `creds = Object.keys(creds)[0]; creds.profile = 'default';`
      let v : CredsValue :=
        match (file.map Prod.fst).head? with
        | none => .undef
        | some k => .str k
      match setProfile v "default" with
      | .error _ => .typeError
      | .ok v => finishCreds repo sha v

/-- A sample credential object for the profile `a`. -/
def credA : CredObject :=
  { region := "us-east-1", accountId := "123456789012",
    accessKeyId := "AKIA", secretAccessKey := "SECRET" }

/-- A sample credential object for the profile `b`. -/
def credB : CredObject :=
  { region := "eu-west-1", accountId := "210987654321",
    accessKeyId := "AKIB", secretAccessKey := "TERCES" }

/-- C3 counterexample.  On a credentials file with zero profiles (and no
flag and no project default) resolution does not fail with the
AmbiguousProfileError: the guard at src/cli.js:440 tests
`Object.keys(creds).length > 1`, so an empty file falls into the
single-profile branch, where `Object.keys(creds)[0]` is `undefined` and
`creds.profile = 'default'` throws a TypeError. -/
theorem loadCreds_zero_profiles_not_ambiguous :
    loadCreds none none (some []) "repo" "sha" = .typeError ∧
    loadCreds none none (some []) "repo" "sha" ≠ .err ambiguousProfileMsg := by
  decide

/-- C3 amended.  With no `--profile` flag and no project default, a
credentials file with MORE than one profile fails with the
AmbiguousProfileError message (src/cli.js:440-441); a file with zero
profiles instead escapes with a TypeError. -/
theorem loadCreds_multiple_profiles_ambiguous
    (file : List (String × CredObject)) (repo sha : String)
    (h : 1 < file.length) :
    loadCreds none none (some file) repo sha = .err ambiguousProfileMsg ∧
    loadCreds none none (some []) repo sha = .typeError := by
  unfold loadCreds
  simp [jsTruthy, h, setProfile]

/-- Witness for C3 at the concrete file with the two profiles `a` and `b`:
resolution fails with the AmbiguousProfileError message. -/
theorem loadCreds_multiple_profiles_ambiguous_witness :
    loadCreds none none (some [("a", credA), ("b", credB)]) "repo" "sha"
      = .err ambiguousProfileMsg ∧
    loadCreds none none (some []) "repo" "sha" = .typeError :=
  loadCreds_multiple_profiles_ambiguous [("a", credA), ("b", credB)] "repo" "sha"
    (by decide)

/-- C4.  On a credentials file with exactly one profile (no flag, no
project default) the resolution callback receives the profile NAME as a
bare string, not the credential object, and no `default` label survives:
src/cli.js:443 assigns `creds = Object.keys(creds)[0]` (the key, where
the parallel branches assign `creds[key]`), after which
`creds.profile = 'default'` is a sloppy-mode no-op on a string primitive.
At the concrete file mapping profile `a` to `credA` the outcome is the
string `a`, not `credA` labelled `default`. -/
theorem loadCreds_single_profile_returns_name :
    loadCreds none none (some [("a", credA)]) "repo" "sha" = .ok (.str "a") ∧
    loadCreds none none (some [("a", credA)]) "repo" "sha"
      ≠ .ok (.obj { credA with profile := some "default",
                                repo := some "repo", sha := some "sha" }) := by
  decide

/-! ## Deployment orchestrator (src/unnamed/part_000, `main`, lines 42-175)

The orchestrator sequences calls to external collaborators.  The embedding
records every such call as an event and returns the trace of events a run
issues together with its final outcome.  The collaborators themselves
(git, the prompt library, the artifact check, the stack-configuration
library, the GitHub client) are modelled by an environment `Env` fixing
the answer or outcome each call would produce in that run.  Calls assumed
not to throw: `fs.writeFileSync` and `fs.unlinkSync` on the owned
temporary file, and the GitHub notification calls. -/

/-- One collaborator call (or terminal action) of a `main` run, in program
order. -/
inductive Event where
  /-- `new Credentials(argv, ...)` — credential loading. -/
  | credsLoad
  /-- `CFN.preauth(creds)`. -/
  | preauth
  /-- `await mode.init.bucket(creds)` — ensures the config and template
  buckets exist in the cloud (part_000 line 55). -/
  | bucketEnsure
  /-- the inquirer prompt about uncommitted changes (lines 60-65). -/
  | promptUncommitted
  /-- the inquirer prompt about unpushed commits (lines 71-76). -/
  | promptUnpushed
  /-- `await artifacts(creds)` (line 82). -/
  | artifactsCheck
  /-- `await gh.deployment(argv._[3])` — pending deployment notification
  (line 87). -/
  | ghPending
  /-- `await Tags.request(creds.tags)` (line 90). -/
  | tagsRequest
  /-- `await CFN.Template.read(...)` (line 102). -/
  | templateRead
  /-- `fs.writeFileSync(cf_path, ...)` — the temporary rendered template
  (line 105). -/
  | writeTemp
  /-- `await cf.create(...)` (line 109). -/
  | cfCreate
  /-- `await cf.update(...)` (line 124). -/
  | cfUpdate
  /-- `await cf.delete(...)` (line 142). -/
  | cfDelete
  /-- `await cf.cancel(...)` (line 149). -/
  | cfCancel
  /-- `fs.unlinkSync(cf_path)` — deletion of the temporary file. -/
  | unlinkTemp
  /-- `await gh.deployment(argv._[3], flag)` — deployment-status
  notification, `true` success-style, `false` failure-style. -/
  | ghNotify (success : Bool)
  /-- `console.error(msg)`. -/
  | consoleError (msg : String)
  /-- `process.exit(code)`. -/
  | exit (code : Nat)
  /-- `mode[command].main(...)` — a non-stack subcommand handler. -/
  | modeMain (cmd : String)
deriving DecidableEq, Repr

/-- An error object thrown by a collaborator: its `message` and the
`execution` and `status` fields inspected by the update failure handler
(part_000 line 134). -/
structure ErrObj where
  message : String
  execution : Option String := none
  status : Option String := none
deriving DecidableEq, Repr

/-- The behaviour of the external collaborators during one run: what git
reports, what the user answers at the prompts, whether the artifact check
throws, the `github` and `tags` fields of the resolved credentials, and
whether each stack operation throws (`some err`) or succeeds (`none`). -/
structure Env where
  uncommitted : Bool
  pushed : Bool
  answerUncommitted : String
  answerUnpushed : String
  artifactsErr : Option ErrObj
  github : Bool
  credsTags : Bool
  createErr : Option ErrObj
  updateErr : Option ErrObj
  deleteErr : Option ErrObj
  cancelErr : Option ErrObj
deriving Repr

/-- How a run of `main` ends: `process.exit(code)`, or the `main` promise
resolving (the process then exits normally). -/
inductive Outcome where
  | exited (code : Nat)
  | returned
deriving DecidableEq, Repr

/-- The four subcommands handled inline by `main`
(part_000 line 43). -/
def stackCommands : List String := ["create", "update", "delete", "cancel"]

/-- Modelled from the spec: `lib/commands.js` (the `mode` dispatch table)
is not under src/; its keys are taken from the CLI surface of the
specification (its section 6). -/
def modeCommands : List String := ["init", "list", "info", "json", "env"]

/-- JavaScript falsiness of an optional CLI string (absent or the empty
string), as in `!argv._[3]` and `!argv.name` at part_000 line 44. -/
def jsFalsyOpt : Option String → Bool
  | none => true
  | some s => s == ""

/-- The command dispatch of `main` (part_000 lines 107-156): the template
is read and written to the temporary path (lines 102-105, events appended
to the preceding trace `t`), then exactly one stack operation runs with
its success and failure handling. -/
def dispatch (cmd : String) (env : Env) (t : List Event) : List Event × Outcome :=
  let t := t ++ [Event.templateRead, Event.writeTemp]
  if cmd == "create" then
    match env.createErr with
    | none =>
      let t := t ++ [Event.cfCreate, Event.unlinkTemp]
      (if env.github then t ++ [Event.ghNotify true] else t, .returned)
    | some e =>
      let t := t ++ [Event.cfCreate, Event.consoleError ("Create failed: " ++ e.message)]
      (if env.github then t ++ [Event.ghNotify false] else t, .returned)
  else if cmd == "update" then
    match env.updateErr with
    | none => (t ++ [Event.cfUpdate, Event.unlinkTemp], .returned)
    | some e =>
      let t := t ++ [Event.cfUpdate, Event.consoleError ("Update failed: " ++ e.message)]
      if env.github && e.execution == some "UNAVAILABLE" && e.status == some "FAILED" then
        (t ++ [Event.ghNotify true], .returned)
      else if env.github then
        (t ++ [Event.ghNotify false], .returned)
      else
        (t, .returned)
  else if cmd == "delete" then
    match env.deleteErr with
    | none => (t ++ [Event.cfDelete, Event.unlinkTemp], .returned)
    | some e => (t ++ [Event.cfDelete, Event.consoleError ("Delete failed: " ++ e.message)], .returned)
  else
    match env.cancelErr with
    | none =>
      let t := t ++ [Event.cfCancel, Event.unlinkTemp]
      (if env.github then t ++ [Event.ghNotify false] else t, .returned)
    | some e => (t ++ [Event.cfCancel, Event.consoleError ("Cancel failed: " ++ e.message)], .returned)

/-- JavaScript `toLowerCase()` on a prompt answer, as a structural map of
`Char.toLower` over the characters. -/
def jsToLower (s : String) : String := ⟨s.data.map Char.toLower⟩

/-- The preflight block of `main` for create/update (part_000 lines
58-92): the two git prompts (a non-`y` answer returns from `main` at lines
67 and 78), the artifact check (an error returns after the message at line
84), the pending GitHub notification and the tag request.  Returns the
events of the block and whether the run proceeds to the stack operation
(`false` when one of the early returns fired). -/
def preflight (env : Env) : List Event × Bool :=
  let t1 := if env.uncommitted then [Event.promptUncommitted] else []
  if env.uncommitted && jsToLower env.answerUncommitted != "y" then
    (t1, false)
  else
    let t2 := if !env.pushed then t1 ++ [Event.promptUnpushed] else t1
    if !env.pushed && jsToLower env.answerUnpushed != "y" then
      (t2, false)
    else
      match env.artifactsErr with
      | some e =>
        (t2 ++ [Event.artifactsCheck,
                Event.consoleError ("Artifacts Check Failed: " ++ e.message)],
         false)
      | none =>
        let t3 := t2 ++ [Event.artifactsCheck]
        let t4 := if env.github then t3 ++ [Event.ghPending] else t3
        -- `creds.tags && ['create','update'].includes(command)`: the second
        -- conjunct is redundant inside this block
        let t5 := if env.credsTags then t4 ++ [Event.tagsRequest] else t4
        (t5, true)

/-- The calls every stack-command run makes before anything else
(part_000 lines 49-55): credential loading, `CFN.preauth`, and the
bucket-ensure call. -/
def initialTrace : List Event :=
  [Event.credsLoad, Event.preauth, Event.bucketEnsure]

/-- The stack-command path of `main` after the stack name was validated
(part_000 lines 49-156): the initial calls; then for create/update the
preflight block, returning from `main` when it aborted; finally the
dispatch. -/
def stackFlow (cmd : String) (env : Env) : List Event × Outcome :=
  if cmd == "create" || cmd == "update" then
    if (preflight env).2 then
      dispatch cmd env (initialTrace ++ (preflight env).1)
    else
      (initialTrace ++ (preflight env).1, .returned)
  else
    dispatch cmd env initialTrace

/-- The `main` function of part_000 (lines 42-175): a stack command first
validates that a stack name was supplied positionally or via `--name`
(lines 44-47, exiting with code 1 otherwise) and then runs `stackFlow`; a
`mode` subcommand runs its handler (with credential loading first except
for `init`); anything else reports an unknown subcommand and exits 1. -/
def main (cmd : String) (pos3 nameFlag : Option String) (env : Env) :
    List Event × Outcome :=
  if stackCommands.contains cmd then
    if jsFalsyOpt pos3 && jsFalsyOpt nameFlag then
      ([Event.consoleError ("Stack name required: run deploy " ++ cmd ++ " --help"),
        Event.exit 1],
       .exited 1)
    else
      stackFlow cmd env
  else if modeCommands.contains cmd then
    if cmd == "init" then ([Event.modeMain cmd], .returned)
    else ([Event.credsLoad, Event.modeMain cmd], .returned)
  else
    ([Event.consoleError "Subcommand not found!", Event.exit 1], .exited 1)

/-- The events that reach out to a remote service: the bucket-ensure call
(it ensures the two S3 buckets exist), the remote artifact check, the
GitHub notifications and the four stack operations. -/
def isRemoteCall : Event → Bool
  | .bucketEnsure => true
  | .artifactsCheck => true
  | .ghPending => true
  | .ghNotify _ => true
  | .cfCreate => true
  | .cfUpdate => true
  | .cfDelete => true
  | .cfCancel => true
  | _ => false

/-- The four stack operations of the stack-configuration collaborator. -/
def isStackOperation : Event → Bool
  | .cfCreate => true
  | .cfUpdate => true
  | .cfDelete => true
  | .cfCancel => true
  | _ => false

/-- A quiet environment: a clean git tree, no collaborator failures, no
GitHub notification, no extra tags. -/
def env₀ : Env :=
  { uncommitted := false, pushed := true,
    answerUncommitted := "", answerUnpushed := "",
    artifactsErr := none, github := false, credsTags := false,
    createErr := none, updateErr := none, deleteErr := none, cancelErr := none }

/-- An environment in which the working tree has uncommitted changes and
the user answers `n` at the resulting prompt. -/
def envDecline : Env :=
  { env₀ with uncommitted := true, answerUncommitted := "n", github := true }

/-- An error object with no `execution` or `status` field. -/
def errBoom : ErrObj := { message := "boom" }

/-- The error shape of the update special case: execution unavailable and
already-failed status. -/
def unavailableErr : ErrObj :=
  { message := "Cannot update a stack while status is FAILED",
    execution := some "UNAVAILABLE", status := some "FAILED" }

/-- An environment in which `cf.update` throws `unavailableErr` and GitHub
notification is enabled. -/
def envUnavailable : Env :=
  { env₀ with github := true, updateErr := some unavailableErr }

/-- The events a run can issue before reaching the dispatch: everything
`initialTrace` and `preflight` can emit. -/
def isPreflightEvent : Event → Bool
  | .credsLoad => true
  | .preauth => true
  | .bucketEnsure => true
  | .promptUncommitted => true
  | .promptUnpushed => true
  | .artifactsCheck => true
  | .ghPending => true
  | .tagsRequest => true
  | .consoleError _ => true
  | _ => false

theorem preflight_events (env : Env) :
    (preflight env).1.all isPreflightEvent = true := by
  unfold preflight
  repeat' split
  all_goals rfl

theorem dispatch_outcome (cmd : String) (env : Env) (t : List Event) :
    (dispatch cmd env t).2 = Outcome.returned := by
  unfold dispatch
  repeat' split
  all_goals rfl

theorem mem_dispatch_of_mem (cmd : String) (env : Env) (t : List Event) (ev : Event)
    (h : ev ∈ t) : ev ∈ (dispatch cmd env t).1 := by
  unfold dispatch
  repeat' split
  all_goals simp [h]

theorem writeTemp_mem_dispatch (cmd : String) (env : Env) (t : List Event) :
    Event.writeTemp ∈ (dispatch cmd env t).1 := by
  unfold dispatch
  repeat' split
  all_goals simp

theorem stackFlow_shape (cmd : String) (env : Env) :
    (∃ t, stackFlow cmd env = dispatch cmd env t ∧
       t.all isPreflightEvent = true ∧ Event.credsLoad ∈ t) ∨
    ((stackFlow cmd env).1.all isPreflightEvent = true ∧
       (stackFlow cmd env).2 = Outcome.returned ∧
       Event.credsLoad ∈ (stackFlow cmd env).1) := by
  have h := preflight_events env
  unfold stackFlow
  split
  · split
    · left
      refine ⟨_, rfl, ?_, by simp [initialTrace]⟩
      simp [List.all_append, h, initialTrace, isPreflightEvent]
    · right
      refine ⟨?_, rfl, by simp [initialTrace]⟩
      simp [List.all_append, h, initialTrace, isPreflightEvent]
  · left
    exact ⟨_, rfl, by rfl, by simp [initialTrace]⟩

theorem stackFlow_outcome (cmd : String) (env : Env) :
    (stackFlow cmd env).2 = Outcome.returned := by
  rcases stackFlow_shape cmd env with ⟨t, heq, -, -⟩ | ⟨-, h, -⟩
  · rw [heq]; exact dispatch_outcome cmd env t
  · exact h

theorem credsLoad_mem_stackFlow (cmd : String) (env : Env) :
    Event.credsLoad ∈ (stackFlow cmd env).1 := by
  rcases stackFlow_shape cmd env with ⟨t, heq, -, hmem⟩ | ⟨-, -, hmem⟩
  · rw [heq]; exact mem_dispatch_of_mem cmd env t _ hmem
  · exact hmem

theorem main_stack_eq (cmd : String) (pos name : Option String) (env : Env)
    (hcmd : stackCommands.contains cmd = true)
    (hname : (jsFalsyOpt pos && jsFalsyOpt name) = false) :
    main cmd pos name env = stackFlow cmd env := by
  unfold main
  rw [hcmd]
  simp [hname]

theorem stackFlow_delete (env : Env) :
    stackFlow "delete" env = dispatch "delete" env initialTrace := by
  simp [stackFlow]

theorem stackFlow_cancel (env : Env) :
    stackFlow "cancel" env = dispatch "cancel" env initialTrace := by
  simp [stackFlow]

theorem dispatch_create_success (env : Env) (t : List Event)
    (h : env.createErr = none) :
    Event.unlinkTemp ∈ (dispatch "create" env t).1 := by
  cases hg : env.github <;> simp [dispatch, h, hg]

theorem dispatch_update_success (env : Env) (t : List Event)
    (h : env.updateErr = none) :
    Event.unlinkTemp ∈ (dispatch "update" env t).1 := by
  simp [dispatch, h]

theorem dispatch_delete_success (env : Env) (t : List Event)
    (h : env.deleteErr = none) :
    Event.unlinkTemp ∈ (dispatch "delete" env t).1 := by
  simp [dispatch, h]

theorem dispatch_cancel_success (env : Env) (t : List Event)
    (h : env.cancelErr = none) :
    Event.unlinkTemp ∈ (dispatch "cancel" env t).1 := by
  cases hg : env.github <;> simp [dispatch, h, hg]

theorem dispatch_create_failure (env : Env) (t : List Event) (e : ErrObj)
    (h : env.createErr = some e) (ht : Event.unlinkTemp ∉ t) :
    Event.unlinkTemp ∉ (dispatch "create" env t).1 := by
  cases hg : env.github <;> simp [dispatch, h, hg, ht]

theorem dispatch_update_failure (env : Env) (t : List Event) (e : ErrObj)
    (h : env.updateErr = some e) (ht : Event.unlinkTemp ∉ t) :
    Event.unlinkTemp ∉ (dispatch "update" env t).1 := by
  unfold dispatch
  repeat' split
  all_goals simp_all

/-- C5.  When `cf.update` throws an error whose `execution` field is
`UNAVAILABLE` and whose `status` field is `FAILED`, and GitHub
notification is enabled, the run never issues a failure-style
notification, and whenever the update call was actually dispatched the
run issues a success-style notification (part_000 lines 134-138). -/
theorem update_unavailable_notifies_success
    (pos name : Option String) (env : Env) (e : ErrObj)
    (hupd : env.updateErr = some e)
    (hexec : e.execution = some "UNAVAILABLE")
    (hstat : e.status = some "FAILED")
    (hgh : env.github = true) :
    Event.ghNotify false ∉ (main "update" pos name env).1 ∧
    (Event.cfUpdate ∈ (main "update" pos name env).1 →
      Event.ghNotify true ∈ (main "update" pos name env).1) := by
  by_cases hguard : (jsFalsyOpt pos && jsFalsyOpt name) = true
  · simp [main, stackCommands, hguard]
  · rw [main_stack_eq "update" pos name env (by decide)
      (by simpa using hguard)]
    rcases stackFlow_shape "update" env with ⟨t, heq, hall, -⟩ | ⟨hall, -, -⟩
    · rw [heq]
      have hnf : Event.ghNotify false ∉ t := fun hmem =>
        absurd (List.all_eq_true.1 hall _ hmem) (by decide)
      constructor
      · simp [dispatch, hupd, hexec, hstat, hgh, hnf]
      · intro _
        simp [dispatch, hupd, hexec, hstat, hgh]
    · constructor
      · intro hmem
        exact absurd (List.all_eq_true.1 hall _ hmem) (by decide)
      · intro hmem
        exact absurd (List.all_eq_true.1 hall _ hmem) (by decide)

/-- Witness for C5 at a concrete run: update of stack `stk` with
`unavailableErr` thrown and GitHub notification enabled. -/
theorem update_unavailable_notifies_success_witness :
    Event.ghNotify false ∉ (main "update" (some "stk") none envUnavailable).1 ∧
    (Event.cfUpdate ∈ (main "update" (some "stk") none envUnavailable).1 →
      Event.ghNotify true ∈ (main "update" (some "stk") none envUnavailable).1) :=
  update_unavailable_notifies_success (some "stk") none envUnavailable
    unavailableErr rfl rfl rfl rfl

/-- C6 amended.  A negative answer to the uncommitted-changes or
unpushed-commits prompt makes `main` return cleanly (no error event, no
exit code) without any stack operation, artifact check, template
rendering or notification — the trace is exactly the initial calls plus
the prompts shown.  The `initialTrace` that has already run before the
prompt contains the bucket-ensure cloud call, so the run is not free of
cloud calls (see `decline_prompt_cloud_call_already_made`). -/
theorem negative_preflight_answer_aborts
    (cmd : String) (pos name : Option String) (env : Env)
    (hcmd : cmd = "create" ∨ cmd = "update")
    (hname : (jsFalsyOpt pos && jsFalsyOpt name) = false) :
    (env.uncommitted = true → jsToLower env.answerUncommitted ≠ "y" →
      main cmd pos name env =
        (initialTrace ++ [Event.promptUncommitted], Outcome.returned)) ∧
    (env.uncommitted = true → jsToLower env.answerUncommitted = "y" →
      env.pushed = false → jsToLower env.answerUnpushed ≠ "y" →
      main cmd pos name env =
        (initialTrace ++ [Event.promptUncommitted, Event.promptUnpushed],
         Outcome.returned)) ∧
    (env.uncommitted = false → env.pushed = false →
      jsToLower env.answerUnpushed ≠ "y" →
      main cmd pos name env =
        (initialTrace ++ [Event.promptUnpushed], Outcome.returned)) := by
  rcases hcmd with rfl | rfl <;>
  refine ⟨?_, ?_, ?_⟩ <;>
  · intros
    rw [main_stack_eq _ pos name env (by decide) hname]
    simp_all [stackFlow, preflight]

/-- Witness for C6 at a concrete run: `create stk` with uncommitted
changes and the answer `n`. -/
theorem negative_preflight_answer_aborts_witness :
    main "create" (some "stk") none envDecline =
      (initialTrace ++ [Event.promptUncommitted], Outcome.returned) :=
  (negative_preflight_answer_aborts "create" (some "stk") none envDecline
    (Or.inl rfl) (by decide)).1 rfl (by decide)

/-- C6 counterexample.  In the declined run the claim that no cloud call
is made does not hold: `mode.init.bucket` (which ensures the config and
template buckets exist in the cloud, part_000 line 55) has already been
awaited before the prompt was shown, so the trace of the aborted run
contains a remote call. -/
theorem decline_prompt_cloud_call_already_made :
    main "create" (some "stk") none envDecline =
      (initialTrace ++ [Event.promptUncommitted], Outcome.returned) ∧
    Event.bucketEnsure ∈ (main "create" (some "stk") none envDecline).1 ∧
    isRemoteCall Event.bucketEnsure = true := by
  decide

/-- C7.  The temporary rendered-template file is deleted when the
dispatched stack operation succeeds (for all four commands), and it is
written but never deleted when a create or update operation fails
(part_000 lines 107-156: `fs.unlinkSync` runs only after the awaited
operation returned, and the catch blocks never unlink). -/
theorem temp_file_deleted_on_success_kept_on_failure
    (pos name : Option String) (env : Env) (e : ErrObj)
    (hname : (jsFalsyOpt pos && jsFalsyOpt name) = false) :
    (env.createErr = none → Event.cfCreate ∈ (main "create" pos name env).1 →
       Event.unlinkTemp ∈ (main "create" pos name env).1) ∧
    (env.updateErr = none → Event.cfUpdate ∈ (main "update" pos name env).1 →
       Event.unlinkTemp ∈ (main "update" pos name env).1) ∧
    (env.deleteErr = none → Event.unlinkTemp ∈ (main "delete" pos name env).1) ∧
    (env.cancelErr = none → Event.unlinkTemp ∈ (main "cancel" pos name env).1) ∧
    (env.createErr = some e →
       Event.unlinkTemp ∉ (main "create" pos name env).1 ∧
       (Event.cfCreate ∈ (main "create" pos name env).1 →
         Event.writeTemp ∈ (main "create" pos name env).1)) ∧
    (env.updateErr = some e →
       Event.unlinkTemp ∉ (main "update" pos name env).1 ∧
       (Event.cfUpdate ∈ (main "update" pos name env).1 →
         Event.writeTemp ∈ (main "update" pos name env).1)) := by
  refine ⟨?_, ?_, ?_, ?_, ?_, ?_⟩
  · intro hc hmem
    rw [main_stack_eq "create" pos name env (by decide) hname] at hmem ⊢
    rcases stackFlow_shape "create" env with ⟨t, heq, -, -⟩ | ⟨hall, -, -⟩
    · rw [heq]
      exact dispatch_create_success env t hc
    · exact absurd (List.all_eq_true.1 hall _ hmem) (by decide)
  · intro hc hmem
    rw [main_stack_eq "update" pos name env (by decide) hname] at hmem ⊢
    rcases stackFlow_shape "update" env with ⟨t, heq, -, -⟩ | ⟨hall, -, -⟩
    · rw [heq]
      exact dispatch_update_success env t hc
    · exact absurd (List.all_eq_true.1 hall _ hmem) (by decide)
  · intro hc
    rw [main_stack_eq "delete" pos name env (by decide) hname,
      stackFlow_delete env]
    exact dispatch_delete_success env initialTrace hc
  · intro hc
    rw [main_stack_eq "cancel" pos name env (by decide) hname,
      stackFlow_cancel env]
    exact dispatch_cancel_success env initialTrace hc
  · intro hc
    rw [main_stack_eq "create" pos name env (by decide) hname]
    rcases stackFlow_shape "create" env with ⟨t, heq, hall, -⟩ | ⟨hall, -, -⟩
    · rw [heq]
      refine ⟨?_, fun _ => writeTemp_mem_dispatch "create" env t⟩
      exact dispatch_create_failure env t e hc (fun hmem =>
        absurd (List.all_eq_true.1 hall _ hmem) (by decide))
    · constructor
      · intro hmem
        exact absurd (List.all_eq_true.1 hall _ hmem) (by decide)
      · intro hmem
        exact absurd (List.all_eq_true.1 hall _ hmem) (by decide)
  · intro hc
    rw [main_stack_eq "update" pos name env (by decide) hname]
    rcases stackFlow_shape "update" env with ⟨t, heq, hall, -⟩ | ⟨hall, -, -⟩
    · rw [heq]
      refine ⟨?_, fun _ => writeTemp_mem_dispatch "update" env t⟩
      exact dispatch_update_failure env t e hc (fun hmem =>
        absurd (List.all_eq_true.1 hall _ hmem) (by decide))
    · constructor
      · intro hmem
        exact absurd (List.all_eq_true.1 hall _ hmem) (by decide)
      · intro hmem
        exact absurd (List.all_eq_true.1 hall _ hmem) (by decide)

/-- Witness for C7 at a concrete run of stack `stk` in the quiet
environment. -/
theorem temp_file_witness :
    (env₀.createErr = none → Event.cfCreate ∈ (main "create" (some "stk") none env₀).1 →
       Event.unlinkTemp ∈ (main "create" (some "stk") none env₀).1) ∧
    (env₀.updateErr = none → Event.cfUpdate ∈ (main "update" (some "stk") none env₀).1 →
       Event.unlinkTemp ∈ (main "update" (some "stk") none env₀).1) ∧
    (env₀.deleteErr = none → Event.unlinkTemp ∈ (main "delete" (some "stk") none env₀).1) ∧
    (env₀.cancelErr = none → Event.unlinkTemp ∈ (main "cancel" (some "stk") none env₀).1) ∧
    (env₀.createErr = some errBoom →
       Event.unlinkTemp ∉ (main "create" (some "stk") none env₀).1 ∧
       (Event.cfCreate ∈ (main "create" (some "stk") none env₀).1 →
         Event.writeTemp ∈ (main "create" (some "stk") none env₀).1)) ∧
    (env₀.updateErr = some errBoom →
       Event.unlinkTemp ∉ (main "update" (some "stk") none env₀).1 ∧
       (Event.cfUpdate ∈ (main "update" (some "stk") none env₀).1 →
         Event.writeTemp ∈ (main "update" (some "stk") none env₀).1)) :=
  temp_file_deleted_on_success_kept_on_failure (some "stk") none env₀ errBoom
    (by decide)

/-- C8.  A create, update, delete or cancel invocation with neither a
positional stack name nor a `--name` flag reports the missing-stack-name
message and exits with code 1, with no credential loading and no remote
call in the trace (part_000 lines 44-47, which precede
`new Credentials`). -/
theorem missing_stack_name_exits
    (cmd : String) (env : Env) (hcmd : cmd ∈ stackCommands) :
    main cmd none none env =
      ([Event.consoleError ("Stack name required: run deploy " ++ cmd ++ " --help"),
        Event.exit 1], Outcome.exited 1) ∧
    Event.credsLoad ∉ (main cmd none none env).1 ∧
    (main cmd none none env).1.all (fun ev => !(isRemoteCall ev)) = true := by
  refine ⟨?_, ?_, ?_⟩ <;>
    simp [main, hcmd, jsFalsyOpt, isRemoteCall]

/-- Witness for C8 at the concrete invocation `deploy create` with no
stack name. -/
theorem missing_stack_name_exits_witness :
    (main "create" none none env₀ =
      ([Event.consoleError "Stack name required: run deploy create --help",
        Event.exit 1], Outcome.exited 1) ∧
    Event.credsLoad ∉ (main "create" none none env₀).1 ∧
    (main "create" none none env₀).1.all (fun ev => !(isRemoteCall ev)) = true) := by
  have h := missing_stack_name_exits "create" env₀ (by decide)
  exact h

/-- C10 amended.  For the four stack commands, the missing-stack-name
failure path is taken exactly when BOTH the positional argument and the
`--name` flag are JavaScript-falsy (absent or the empty string), and a
non-falsy `--name` always lets the run proceed to credential loading.
The check at part_000 line 44 is on falsiness, not absence, so an
empty-string value behaves as if the argument were missing. -/
theorem missing_name_check_iff_falsy
    (cmd : String) (pos name : Option String) (env : Env)
    (hcmd : cmd ∈ stackCommands) :
    ((main cmd pos name env).2 = Outcome.exited 1 ↔
       (jsFalsyOpt pos && jsFalsyOpt name) = true) ∧
    (jsFalsyOpt name = false → Event.credsLoad ∈ (main cmd pos name env).1) := by
  have hc : stackCommands.contains cmd = true := by
    fin_cases hcmd <;> decide
  constructor
  · constructor
    · intro h
      by_contra hguard
      rw [main_stack_eq cmd pos name env hc (by simpa using hguard),
        stackFlow_outcome cmd env] at h
      exact absurd h (by simp)
    · intro hg
      simp [main, hcmd, hg]
  · intro hn
    have hguard : (jsFalsyOpt pos && jsFalsyOpt name) = false := by simp [hn]
    rw [main_stack_eq cmd pos name env hc hguard]
    exact credsLoad_mem_stackFlow cmd env

/-- Witness for C10 at the concrete invocation `deploy delete --name stk`
with no positional argument: validation passes and the run proceeds. -/
theorem missing_name_check_iff_falsy_witness :
    (((main "delete" none (some "stk") env₀).2 = Outcome.exited 1 ↔
       (jsFalsyOpt none && jsFalsyOpt (some "stk")) = true) ∧
    (jsFalsyOpt (some "stk") = false →
       Event.credsLoad ∈ (main "delete" none (some "stk") env₀).1)) :=
  missing_name_check_iff_falsy "delete" none (some "stk") env₀ (by decide)

/-- C10 counterexample.  Supplying only `--name` with the empty-string
value (and no positional argument) does NOT pass validation: the run
takes the missing-stack-name failure path and exits with code 1, because
`!argv.name` is true for the supplied empty string. -/
theorem name_flag_empty_still_fails :
    (main "create" none (some "") env₀).2 = Outcome.exited 1 ∧
    main "create" none (some "") env₀ =
      ([Event.consoleError "Stack name required: run deploy create --help",
        Event.exit 1], Outcome.exited 1) := by
  decide

end Deploy
